import Mathlib

/-!
Shallow embedding of src/ui/src/pages/PublicUpload.tsx.

The page component holds React state (recaptchaVerified, uploadInProgress,
uploadResult, lastDocumentId) and two asynchronous submission handlers,
handleFileUpload and handleUrlUpload.  Each handler is modelled as a pure
function from a World (the external facts the handler consults: the session
user, the environment flags, the reCAPTCHA widget ref, the outcome of the
FileReader, the outcome of whichever network call it makes) and the current
page state to a HandlerOutput: the final page state together with the
observable effects (which API call was issued, navigation target, whether
status polling was started, whether the reCAPTCHA widget was reset).

JavaScript truthiness of optional strings (empty string is falsy) and the
`typeof file.size === 'number'` guard are modelled explicitly: an Option
String is truthy iff it is `some s` with `s` nonempty, and a file size that
is not a number is `none`.
-/

namespace PublicUpload

/-- The uploadResult record: `{ success: boolean, message: string }`. -/
structure UploadResult where
  success : Bool
  message : String
deriving DecidableEq, Repr

/-- Environment-derived configuration: `import.meta.env.DEV` and
`import.meta.env.VITE_RECAPTCHA_SITE_KEY` (absent or a string). -/
structure Env where
  dev : Bool
  siteKey : Option String
deriving DecidableEq, Repr

/-- JavaScript truthiness of an optional string: `undefined`/`null` and the
empty string are falsy. -/
def jsTruthyStr : Option String → Bool
  | none => false
  | some s => if s = "" then false else true

/-- `const isDev = import.meta.env.DEV || !import.meta.env.VITE_RECAPTCHA_SITE_KEY;` -/
def isDev (e : Env) : Bool := e.dev || !jsTruthyStr e.siteKey

/-- A file handed to handleFileUpload.  `size` is `none` when the size field
is not a number (the `typeof file.size === 'number'` guard fails). -/
structure FileData where
  name : String
  size : Option Int
  ftype : String
deriving DecidableEq, Repr

/-- A thrown transport error as inspected by the catch blocks:
`error.status` and `error.message`, each possibly absent. -/
structure JsError where
  status : Option Int
  message : Option String
deriving DecidableEq, Repr

/-- The response shape of the four API calls:
`{success, uploadId?, documentId?, message?}`. -/
structure ApiResponse where
  success : Bool
  uploadId : Option String
  documentId : Option String
  message : Option String
deriving DecidableEq, Repr

/-- The reCAPTCHA widget behind `recaptchaRef.current`: `value` models what
`getValue()` returns (a token or null). -/
structure Recaptcha where
  value : Option String
deriving DecidableEq, Repr

/-- External facts a single handler invocation consults: the session user,
the environment, the widget ref, the FileReader outcome (data URL or
rejection), and the outcome of whichever network call the handler makes. -/
structure World where
  user : Option String
  env : Env
  recaptchaRef : Option Recaptcha
  readerResult : Except JsError String
  apiResponse : Except JsError ApiResponse

/-- The React state of the page relevant to the handlers. -/
structure PageState where
  recaptchaVerified : Bool
  uploadInProgress : Bool
  uploadResult : Option UploadResult
  lastDocumentId : Option String
deriving DecidableEq, Repr

/-- The four API entry points, with the arguments the page passes. -/
inductive ApiCall where
  | uploadMenu (name : String) (size : Option Int) (ftype : String) (content : Option String)
  | uploadPublicMenu (file : FileData) (recaptchaToken : String)
  | uploadMenuUrl (url : String) (restaurantName : String)
  | parsePublicUrl (url : String) (recaptchaToken : String)
deriving DecidableEq, Repr

/-- Final state plus observable effects of one handler invocation. -/
structure HandlerOutput where
  state : PageState
  netCall : Option ApiCall
  navTarget : Option String
  pollingStarted : Bool
  recaptchaReset : Bool
deriving DecidableEq, Repr

/-- Default-translation strings used by the page (the `t(key, default)`
fallbacks). -/
def fileTooLargeMsg : String := "Maximum upload size is 10 MB"

def recaptchaRequiredMsg : String :=
  "Please complete the reCAPTCHA verification to proceed."

def uploadSuccessMsg : String :=
  "Upload successful! Check your dashboard for analysis results."

def uploadErrorMsg : String := "Upload failed. Please try again."

def urlParseErrorMsg : String := "URL parsing failed. Please try again."

def rateLimitMsg : String := "Too many uploads. Please wait before trying again."

def recaptchaErrorMsg : String := "reCAPTCHA verification failed. Please try again."

/-- `const maxSizeBytes = 10 * 1024 * 1024;` -/
def maxSizeBytes : Int := 10 * 1024 * 1024

/-- `recaptchaRef.current?.getValue() || 'dev-token'`: the widget token when
truthy, otherwise the fixed development token. -/
def recaptchaTokenOrDev (ref : Option Recaptcha) : String :=
  match ref with
  | none => "dev-token"
  | some w =>
    match w.value with
    | none => "dev-token"
    | some tk => if tk = "" then "dev-token" else tk

/-- Template-literal interpolation of a possibly-undefined string. -/
def jsTemplateStr : Option String → String
  | none => "undefined"
  | some s => s

/-- `m || dflt` for an optional string `m`: the string when truthy, else the
default. -/
def jsOrElse (m : Option String) (dflt : String) : String :=
  match m with
  | none => dflt
  | some s => if s = "" then dflt else s

/-- Substring test, modelling `String.prototype.includes`. -/
def strIncludes (s pat : String) : Bool := (s.splitOn pat).length ≥ 2

/-- `error.message?.includes(pat)` coerced to a boolean. -/
def jsIncludes (m : Option String) (pat : String) : Bool :=
  match m with
  | none => false
  | some s => strIncludes s pat

/-- `reader.result.split(',')[1]`: the second component of the comma split
of the data URL, absent when the string holds no comma. -/
def extractBase64 (dataUrl : String) : Option String :=
  (dataUrl.splitOn ",")[1]?

/-- The catch-block message classification of handleFileUpload
(429, then 413, then the reCAPTCHA keyword, then the generic default). -/
def classifyFileUploadError (e : JsError) : String :=
  if e.status = some 429 then rateLimitMsg
  else if e.status = some 413 then fileTooLargeMsg
  else if jsIncludes e.message "reCAPTCHA" then recaptchaErrorMsg
  else uploadErrorMsg

/-- The catch-block message classification of handleUrlUpload
(429, then the reCAPTCHA keyword, then the generic default; no 413 case). -/
def classifyUrlUploadError (e : JsError) : String :=
  if e.status = some 429 then rateLimitMsg
  else if jsIncludes e.message "reCAPTCHA" then recaptchaErrorMsg
  else urlParseErrorMsg

/-- `typeof file.size === 'number' && file.size > maxSizeBytes`. -/
def fileSizeRejected (file : FileData) : Bool :=
  match file.size with
  | some s => decide (s > maxSizeBytes)
  | none => false

/-- The early return of handleFileUpload when the size check fires: only
uploadResult changes; no network call, navigation, polling or reset. -/
def sizeRejectOutput (st : PageState) : HandlerOutput :=
  { state := { st with uploadResult := some { success := false, message := fileTooLargeMsg } }
    netCall := none
    navTarget := none
    pollingStarted := false
    recaptchaReset := false }

/-- The early return when the reCAPTCHA gate fires: only uploadResult
changes; no network call, navigation, polling or reset. -/
def recaptchaRejectOutput (st : PageState) : HandlerOutput :=
  { state := { st with uploadResult := some { success := false, message := recaptchaRequiredMsg } }
    netCall := none
    navTarget := none
    pollingStarted := false
    recaptchaReset := false }

/-- Authenticated branch of the file-upload try block: read the file as a
data URL, strip up to the first comma, call api.uploadMenu; on a response
record documentId (when truthy) and start polling, then set the result; the
reCAPTCHA reset block is skipped because a user is present; a thrown error
lands in the catch block and the finally clause clears the busy flag. -/
def authFileAttempt (w : World) (st : PageState) (file : FileData) : HandlerOutput :=
  match w.readerResult with
  | .error e =>
    { state := { st with
        uploadResult := some { success := false, message := classifyFileUploadError e }
        uploadInProgress := false }
      netCall := none
      navTarget := none
      pollingStarted := false
      recaptchaReset := false }
  | .ok dataUrl =>
    let call := ApiCall.uploadMenu file.name file.size file.ftype (extractBase64 dataUrl)
    match w.apiResponse with
    | .error e =>
      { state := { st with
          uploadResult := some { success := false, message := classifyFileUploadError e }
          uploadInProgress := false }
        netCall := some call
        navTarget := none
        pollingStarted := false
        recaptchaReset := false }
    | .ok resp =>
      let docTruthy := jsTruthyStr resp.documentId
      let st1 := if docTruthy then { st with lastDocumentId := resp.documentId } else st
      let st2 :=
        if resp.success then
          { st1 with uploadResult := some { success := true, message := uploadSuccessMsg } }
        else
          { st1 with uploadResult := some ⟨false, jsOrElse resp.message uploadErrorMsg⟩ }
      { state := { st2 with uploadInProgress := false }
        netCall := some call
        navTarget := none
        pollingStarted := docTruthy
        recaptchaReset := false }

/-- Anonymous branch of the file-upload try block: call uploadPublicMenu
with the widget token (or the dev fallback); on success navigate to the
restaurant-details route and reset the widget; on a failure response set
the result and reset the widget; a thrown error lands in the catch block,
which performs no reset. -/
def publicFileAttempt (w : World) (st : PageState) (file : FileData) : HandlerOutput :=
  let call := ApiCall.uploadPublicMenu file (recaptchaTokenOrDev w.recaptchaRef)
  match w.apiResponse with
  | .error e =>
    { state := { st with
        uploadResult := some { success := false, message := classifyFileUploadError e }
        uploadInProgress := false }
      netCall := some call
      navTarget := none
      pollingStarted := false
      recaptchaReset := false }
  | .ok resp =>
    if resp.success then
      { state := { st with recaptchaVerified := false, uploadInProgress := false }
        netCall := some call
        navTarget := some ("/restaurant-details/" ++ jsTemplateStr resp.uploadId)
        pollingStarted := false
        recaptchaReset := true }
    else
      { state := { st with
          uploadResult := some { success := false, message := jsOrElse resp.message uploadErrorMsg }
          recaptchaVerified := false
          uploadInProgress := false }
        netCall := some call
        navTarget := none
        pollingStarted := false
        recaptchaReset := true }

/-- The body of handleFileUpload past the two early returns: set the busy
flag, clear the result, then branch on the session user. -/
def fileUploadProceed (w : World) (st : PageState) (file : FileData) : HandlerOutput :=
  let st1 := { st with uploadInProgress := true, uploadResult := none }
  match w.user with
  | some _ => authFileAttempt w st1 file
  | none => publicFileAttempt w st1 file

/-- Continuation of handleFileUpload once the size check has passed (or was
skipped): the reCAPTCHA gate for anonymous users outside a development
configuration, then the upload proper. -/
def fileUploadAfterSizeCheck (w : World) (st : PageState) (file : FileData) : HandlerOutput :=
  if w.user.isNone && !st.recaptchaVerified && !isDev w.env then
    recaptchaRejectOutput st
  else fileUploadProceed w st file

/-- handleFileUpload: empty list returns immediately; then the 10 MiB size
check; then the gate and the upload proper. -/
def handleFileUpload (w : World) (st : PageState) (files : List FileData) : HandlerOutput :=
  match files with
  | [] =>
    { state := st
      netCall := none
      navTarget := none
      pollingStarted := false
      recaptchaReset := false }
  | file :: _ =>
    if fileSizeRejected file then sizeRejectOutput st
    else fileUploadAfterSizeCheck w st file

/-- Authenticated branch of the URL try block: call api.uploadMenuUrl with
an empty restaurant name; on a response record documentId (when truthy) and
start polling, then set the result; no reset because a user is present. -/
def authUrlAttempt (w : World) (st : PageState) (url : String) : HandlerOutput :=
  let call := ApiCall.uploadMenuUrl url ""
  match w.apiResponse with
  | .error e =>
    { state := { st with
        uploadResult := some { success := false, message := classifyUrlUploadError e }
        uploadInProgress := false }
      netCall := some call
      navTarget := none
      pollingStarted := false
      recaptchaReset := false }
  | .ok resp =>
    let docTruthy := jsTruthyStr resp.documentId
    let st1 := if docTruthy then { st with lastDocumentId := resp.documentId } else st
    let st2 :=
      if resp.success then
        { st1 with uploadResult := some { success := true, message := uploadSuccessMsg } }
      else
        { st1 with uploadResult := some ⟨false, jsOrElse resp.message urlParseErrorMsg⟩ }
    { state := { st2 with uploadInProgress := false }
      netCall := some call
      navTarget := none
      pollingStarted := docTruthy
      recaptchaReset := false }

/-- Anonymous branch of the URL try block: call parsePublicUrl with the
widget token (or the dev fallback); on success navigate and reset the
widget; on a failure response set the result and reset the widget; a thrown
error lands in the catch block, which performs no reset. -/
def publicUrlAttempt (w : World) (st : PageState) (url : String) : HandlerOutput :=
  let call := ApiCall.parsePublicUrl url (recaptchaTokenOrDev w.recaptchaRef)
  match w.apiResponse with
  | .error e =>
    { state := { st with
        uploadResult := some { success := false, message := classifyUrlUploadError e }
        uploadInProgress := false }
      netCall := some call
      navTarget := none
      pollingStarted := false
      recaptchaReset := false }
  | .ok resp =>
    if resp.success then
      { state := { st with recaptchaVerified := false, uploadInProgress := false }
        netCall := some call
        navTarget := some ("/restaurant-details/" ++ jsTemplateStr resp.uploadId)
        pollingStarted := false
        recaptchaReset := true }
    else
      { state := { st with
          uploadResult := some { success := false, message := jsOrElse resp.message urlParseErrorMsg }
          recaptchaVerified := false
          uploadInProgress := false }
        netCall := some call
        navTarget := none
        pollingStarted := false
        recaptchaReset := true }

/-- handleUrlUpload: the reCAPTCHA gate for anonymous users outside a
development configuration, then the submission proper (no size check). -/
def handleUrlUpload (w : World) (st : PageState) (url : String) : HandlerOutput :=
  if w.user.isNone && !st.recaptchaVerified && !isDev w.env then
    recaptchaRejectOutput st
  else
    let st1 := { st with uploadInProgress := true, uploadResult := none }
    match w.user with
    | some _ => authUrlAttempt w st1 url
    | none => publicUrlAttempt w st1 url

/-- JSX condition of the reCAPTCHA widget block:
`!user && import.meta.env.VITE_RECAPTCHA_SITE_KEY && !import.meta.env.DEV`. -/
def recaptchaWidgetRendered (user : Option String) (e : Env) : Bool :=
  user.isNone && jsTruthyStr e.siteKey && !e.dev

/-- JSX condition of the development-mode notice:
`!user && (import.meta.env.DEV || !import.meta.env.VITE_RECAPTCHA_SITE_KEY)`. -/
def devNoticeRendered (user : Option String) (e : Env) : Bool :=
  user.isNone && (e.dev || !jsTruthyStr e.siteKey)

/-! Concrete fixtures used by witness and counterexample theorems. -/

/-- Fresh page state: nothing verified, nothing in progress, no result. -/
def stInit : PageState :=
  { recaptchaVerified := false
    uploadInProgress := false
    uploadResult := none
    lastDocumentId := none }

/-- Page state after the widget reported a token. -/
def stVerified : PageState := { stInit with recaptchaVerified := true }

/-- Production configuration: site key present, not development. -/
def envProd : Env := { dev := false, siteKey := some "site-key" }

/-- Development configuration: the DEV flag is set. -/
def envDev : Env := { dev := true, siteKey := some "site-key" }

/-- A small, acceptable file. -/
def pdfFile : FileData :=
  { name := "menu.pdf", size := some 50000, ftype := "application/pdf" }

/-- A file one byte over the 10 MiB limit. -/
def hugeFile : FileData :=
  { name := "menu.pdf", size := some (10 * 1024 * 1024 + 1), ftype := "application/pdf" }

/-- A file whose size field is not a number. -/
def nanFile : FileData :=
  { name := "menu.pdf", size := none, ftype := "application/pdf" }

/-- A FileReader data URL whose payload is the base64 text QUJD. -/
def dataUrlFx : String := "data:application/pdf;base64,QUJD"

/-- Successful public response carrying an upload identifier. -/
def respOkUpload : ApiResponse :=
  { success := true, uploadId := some "u1", documentId := none, message := none }

/-- Successful authenticated response carrying a document identifier. -/
def respOkDoc : ApiResponse :=
  { success := true, uploadId := none, documentId := some "doc1", message := none }

/-- Failure response carrying a server message. -/
def respFailMsg : ApiResponse :=
  { success := false, uploadId := none, documentId := none, message := some "quota exceeded" }

/-- A bare transport error: no status, no message. -/
def errPlain : JsError := { status := none, message := none }

/-- A 429 transport error. -/
def err429 : JsError := { status := some 429, message := none }

/-- A 413 transport error whose message holds the reCAPTCHA keyword. -/
def err413kw : JsError := { status := some 413, message := some "reCAPTCHA rejected" }

/-- Anonymous user, development flag set, no widget, successful public response. -/
def wAnonDevOk : World :=
  { user := none
    env := envDev
    recaptchaRef := none
    readerResult := .ok dataUrlFx
    apiResponse := .ok respOkUpload }

/-- Anonymous user, production configuration, verified widget token, transport error. -/
def wAnonProdErr : World :=
  { user := none
    env := envProd
    recaptchaRef := some { value := some "tok" }
    readerResult := .ok dataUrlFx
    apiResponse := .error errPlain }

/-- Anonymous user, production configuration, no widget token, successful response. -/
def wAnonProd : World :=
  { user := none
    env := envProd
    recaptchaRef := none
    readerResult := .ok dataUrlFx
    apiResponse := .ok respOkUpload }

/-- Authenticated user, successful response with a document identifier. -/
def wAuthDoc : World :=
  { user := some "uid"
    env := envProd
    recaptchaRef := none
    readerResult := .ok dataUrlFx
    apiResponse := .ok respOkDoc }

/-- Anonymous user, development flag set, 413 transport error with keyword. -/
def wAnonDevErr413 : World :=
  { user := none
    env := envDev
    recaptchaRef := none
    readerResult := .ok dataUrlFx
    apiResponse := .error err413kw }

/-- Anonymous user, development flag set, failure response with a server message. -/
def wAnonDevFail : World :=
  { user := none
    env := envDev
    recaptchaRef := none
    readerResult := .ok dataUrlFx
    apiResponse := .ok respFailMsg }

/-- C10: calling handleFileUpload with an empty file list returns
immediately: the page state is unchanged and no network call, navigation,
polling start or widget reset occurs. -/
theorem c10_empty_file_list_no_effect (w : World) (st : PageState) :
    handleFileUpload w st [] =
      { state := st
        netCall := none
        navTarget := none
        pollingStarted := false
        recaptchaReset := false } := rfl

/-- C3: a file whose size is a number strictly above 10 x 1024 x 1024 bytes
is rejected locally: the output is the size-reject early return, which
makes no network call, does not navigate, and sets the file-too-large
failure result. -/
theorem c3_oversize_rejected_locally (w : World) (st : PageState) (file : FileData)
    (rest : List FileData) (s : Int) (hsize : file.size = some s)
    (hgt : s > maxSizeBytes) :
    handleFileUpload w st (file :: rest) = sizeRejectOutput st ∧
    (handleFileUpload w st (file :: rest)).netCall = none ∧
    (handleFileUpload w st (file :: rest)).state.uploadResult =
      some { success := false, message := fileTooLargeMsg } := by
  have hrej : fileSizeRejected file = true := by
    simp [fileSizeRejected, hsize, hgt]
  refine ⟨?_, ?_, ?_⟩ <;> simp [handleFileUpload, hrej, sizeRejectOutput]

/-- Witness for C3 at a concrete oversized file. -/
theorem c3_witness :
    handleFileUpload wAuthDoc stInit (hugeFile :: []) = sizeRejectOutput stInit ∧
    (handleFileUpload wAuthDoc stInit (hugeFile :: [])).netCall = none ∧
    (handleFileUpload wAuthDoc stInit (hugeFile :: [])).state.uploadResult =
      some { success := false, message := fileTooLargeMsg } :=
  c3_oversize_rejected_locally wAuthDoc stInit hugeFile [] (10 * 1024 * 1024 + 1)
    rfl (by decide)

/-- C9: the size check fires only when the size field is a number strictly
greater than 10 x 1024 x 1024: a non-number size skips the check and the
handler proceeds exactly as it does past the size check, an in-range
numeric size does the same, and only an oversized numeric size produces the
local rejection. -/
theorem c9_non_number_size_skips_check (w : World) (st : PageState)
    (file : FileData) (rest : List FileData) :
    (file.size = none →
      handleFileUpload w st (file :: rest) = fileUploadAfterSizeCheck w st file) ∧
    (∀ s : Int, file.size = some s → s > maxSizeBytes →
      handleFileUpload w st (file :: rest) = sizeRejectOutput st) ∧
    (∀ s : Int, file.size = some s → s ≤ maxSizeBytes →
      handleFileUpload w st (file :: rest) = fileUploadAfterSizeCheck w st file) := by
  refine ⟨?_, ?_, ?_⟩
  · intro hnone
    have hrej : fileSizeRejected file = false := by simp [fileSizeRejected, hnone]
    simp [handleFileUpload, hrej]
  · intro s hs hgt
    have hrej : fileSizeRejected file = true := by simp [fileSizeRejected, hs, hgt]
    simp [handleFileUpload, hrej]
  · intro s hs hle
    have hrej : fileSizeRejected file = false := by
      simp [fileSizeRejected, hs]
      exact hle
    simp [handleFileUpload, hrej]

/-- Witness for C9 at a concrete file with a non-number size field. -/
theorem c9_witness :
    handleFileUpload wAuthDoc stInit (nanFile :: []) =
      fileUploadAfterSizeCheck wAuthDoc stInit nanFile :=
  (c9_non_number_size_skips_check wAuthDoc stInit nanFile []).1 rfl

/-- C8: the reCAPTCHA widget renders exactly when no session, a truthy site
key and a non-development environment coincide; the development-mode notice
renders exactly when there is no session and the environment is development
or the site key is not configured; for an anonymous user exactly one of the
two renders. -/
theorem c8_widget_visibility (u : Option String) (e : Env) :
    (recaptchaWidgetRendered u e = true ↔
      u = none ∧ jsTruthyStr e.siteKey = true ∧ e.dev = false) ∧
    (devNoticeRendered u e = true ↔
      u = none ∧ (e.dev = true ∨ jsTruthyStr e.siteKey = false)) ∧
    xor (recaptchaWidgetRendered none e) (devNoticeRendered none e) = true := by
  refine ⟨?_, ?_, ?_⟩
  · cases u <;> cases hd : e.dev <;> cases hk : jsTruthyStr e.siteKey <;>
      simp [recaptchaWidgetRendered, hd, hk]
  · cases u <;> cases hd : e.dev <;> cases hk : jsTruthyStr e.siteKey <;>
      simp [devNoticeRendered, hd, hk]
  · cases hd : e.dev <;> cases hk : jsTruthyStr e.siteKey <;>
      simp [recaptchaWidgetRendered, devNoticeRendered, hd, hk]

/-- C4 (amended): for an anonymous user with no verified token outside a
development/no-site-key configuration, a URL submission, and a file
submission with a nonempty list whose first file passes the size check, are
rejected locally with the verification-required result; that early return
makes no network call. -/
theorem c4_recaptcha_gate_rejects (w : World) (st : PageState) (url : String)
    (file : FileData) (rest : List FileData)
    (huser : w.user = none) (hver : st.recaptchaVerified = false)
    (hdev : isDev w.env = false) :
    handleUrlUpload w st url = recaptchaRejectOutput st ∧
    (fileSizeRejected file = false →
      handleFileUpload w st (file :: rest) = recaptchaRejectOutput st) ∧
    (recaptchaRejectOutput st).netCall = none ∧
    (recaptchaRejectOutput st).state.uploadResult =
      some { success := false, message := recaptchaRequiredMsg } := by
  refine ⟨?_, ?_, rfl, rfl⟩
  · simp [handleUrlUpload, huser, hver, hdev]
  · intro hsz
    simp [handleFileUpload, hsz, fileUploadAfterSizeCheck, huser, hver, hdev]

/-- Witness for C4 at a concrete anonymous, unverified, production-mode
submission. -/
theorem c4_witness :
    handleUrlUpload wAnonProd stInit "https://example.com" =
      recaptchaRejectOutput stInit ∧
    (fileSizeRejected pdfFile = false →
      handleFileUpload wAnonProd stInit (pdfFile :: []) =
        recaptchaRejectOutput stInit) ∧
    (recaptchaRejectOutput stInit).netCall = none ∧
    (recaptchaRejectOutput stInit).state.uploadResult =
      some { success := false, message := recaptchaRequiredMsg } :=
  c4_recaptcha_gate_rejects wAnonProd stInit "https://example.com" pdfFile []
    rfl rfl (by decide)

/-- Counterexample to C4 as stated: an anonymous, unverified, non-development
file submission with an oversized file fails with the file-too-large
message, not the verification-required message. -/
theorem c4_counterexample :
    (handleFileUpload wAnonProd stInit (hugeFile :: [])).state.uploadResult =
      some { success := false, message := fileTooLargeMsg } ∧
    fileTooLargeMsg ≠ recaptchaRequiredMsg := by
  exact ⟨rfl, by decide⟩

/-- The reCAPTCHA gate condition is false whenever the flag is verified or a
development/no-site-key configuration is active. -/
theorem gate_false_of_verified_or_dev (w : World) (st : PageState)
    (hgate : st.recaptchaVerified = true ∨ isDev w.env = true) :
    ¬(st.recaptchaVerified = false ∧ isDev w.env = false) := by
  rcases hgate with hv | hd
  · simp [hv]
  · simp [hd]

/-- C5 (amended): for an anonymous user that is verified or in a
development/no-site-key configuration, a URL submission, and a file
submission passing the size check, call the public endpoint with the widget
token or the fixed dev-token fallback; on a successful response carrying an
upload identifier, navigate to the restaurant-details route addressed by
exactly that identifier. -/
theorem c5_public_submission_flow :
    (∀ (w : World) (st : PageState) (url : String),
      w.user = none → (st.recaptchaVerified = true ∨ isDev w.env = true) →
      (handleUrlUpload w st url).netCall =
        some (ApiCall.parsePublicUrl url (recaptchaTokenOrDev w.recaptchaRef))) ∧
    (∀ (w : World) (st : PageState) (file : FileData) (rest : List FileData),
      w.user = none → (st.recaptchaVerified = true ∨ isDev w.env = true) →
      fileSizeRejected file = false →
      (handleFileUpload w st (file :: rest)).netCall =
        some (ApiCall.uploadPublicMenu file (recaptchaTokenOrDev w.recaptchaRef))) ∧
    (recaptchaTokenOrDev none = "dev-token") ∧
    (∀ wdg : Recaptcha, wdg.value = none →
      recaptchaTokenOrDev (some wdg) = "dev-token") ∧
    (∀ (wdg : Recaptcha) (tk : String), wdg.value = some tk → tk ≠ "" →
      recaptchaTokenOrDev (some wdg) = tk) ∧
    (∀ (w : World) (st : PageState) (url : String) (resp : ApiResponse) (u : String),
      w.user = none → (st.recaptchaVerified = true ∨ isDev w.env = true) →
      w.apiResponse = .ok resp → resp.success = true → resp.uploadId = some u →
      (handleUrlUpload w st url).navTarget =
        some ("/restaurant-details/" ++ u)) ∧
    (∀ (w : World) (st : PageState) (file : FileData) (rest : List FileData)
      (resp : ApiResponse) (u : String),
      w.user = none → (st.recaptchaVerified = true ∨ isDev w.env = true) →
      fileSizeRejected file = false →
      w.apiResponse = .ok resp → resp.success = true → resp.uploadId = some u →
      (handleFileUpload w st (file :: rest)).navTarget =
        some ("/restaurant-details/" ++ u)) := by
  refine ⟨?_, ?_, rfl, ?_, ?_, ?_, ?_⟩
  · intro w st url huser hgate
    have hcond := gate_false_of_verified_or_dev w st hgate
    rcases hresp : w.apiResponse with e | resp
    · simp [handleUrlUpload, hcond, huser, publicUrlAttempt, hresp]
    · cases hsucc : resp.success <;>
        simp [handleUrlUpload, hcond, huser, publicUrlAttempt, hresp, hsucc]
  · intro w st file rest huser hgate hsz
    have hcond := gate_false_of_verified_or_dev w st hgate
    rcases hresp : w.apiResponse with e | resp
    · simp [handleFileUpload, hsz, fileUploadAfterSizeCheck, fileUploadProceed,
        hcond, huser, publicFileAttempt, hresp]
    · cases hsucc : resp.success <;>
        simp [handleFileUpload, hsz, fileUploadAfterSizeCheck, fileUploadProceed,
          hcond, huser, publicFileAttempt, hresp, hsucc]
  · intro wdg hval
    simp [recaptchaTokenOrDev, hval]
  · intro wdg tk hval hne
    simp [recaptchaTokenOrDev, hval, hne]
  · intro w st url resp u huser hgate hresp hsucc hup
    have hcond := gate_false_of_verified_or_dev w st hgate
    simp [handleUrlUpload, hcond, huser, publicUrlAttempt, hresp, hsucc,
      jsTemplateStr, hup]
  · intro w st file rest resp u huser hgate hsz hresp hsucc hup
    have hcond := gate_false_of_verified_or_dev w st hgate
    simp [handleFileUpload, hsz, fileUploadAfterSizeCheck, fileUploadProceed,
      hcond, huser, publicFileAttempt, hresp, hsucc, jsTemplateStr, hup]

/-- Witness for C5 at a concrete anonymous development-mode URL submission:
the public endpoint is called with the dev-token fallback and navigation
goes to the returned identifier. -/
theorem c5_witness :
    (handleUrlUpload wAnonDevOk stInit "https://example.com").netCall =
      some (ApiCall.parsePublicUrl "https://example.com"
        (recaptchaTokenOrDev wAnonDevOk.recaptchaRef)) ∧
    (handleUrlUpload wAnonDevOk stInit "https://example.com").navTarget =
      some ("/restaurant-details/" ++ "u1") :=
  ⟨c5_public_submission_flow.1 wAnonDevOk stInit "https://example.com" rfl
      (Or.inr (by decide)),
    c5_public_submission_flow.2.2.2.2.2.1 wAnonDevOk stInit "https://example.com"
      respOkUpload "u1" rfl (Or.inr (by decide)) rfl rfl rfl⟩

/-- Counterexample to C5 as stated: an anonymous development-mode file
submission with an oversized file never reaches the public endpoint. -/
theorem c5_counterexample :
    (handleFileUpload
      { user := none
        env := envDev
        recaptchaRef := none
        readerResult := .ok dataUrlFx
        apiResponse := .ok respOkUpload } stVerified (hugeFile :: [])).netCall =
      none := rfl

/-- C1 (amended): after an anonymous submission attempt that passes the
local checks and receives a server response (success or failure response),
the widget is reset and the verified flag is cleared; after a transport
error the reset code is skipped: no reset occurs and the verified flag is
unchanged. -/
theorem c1_reset_only_on_server_response :
    (∀ (w : World) (st : PageState) (file : FileData) (rest : List FileData)
      (resp : ApiResponse),
      w.user = none → (st.recaptchaVerified = true ∨ isDev w.env = true) →
      fileSizeRejected file = false → w.apiResponse = .ok resp →
      (handleFileUpload w st (file :: rest)).recaptchaReset = true ∧
      (handleFileUpload w st (file :: rest)).state.recaptchaVerified = false) ∧
    (∀ (w : World) (st : PageState) (url : String) (resp : ApiResponse),
      w.user = none → (st.recaptchaVerified = true ∨ isDev w.env = true) →
      w.apiResponse = .ok resp →
      (handleUrlUpload w st url).recaptchaReset = true ∧
      (handleUrlUpload w st url).state.recaptchaVerified = false) ∧
    (∀ (w : World) (st : PageState) (file : FileData) (rest : List FileData)
      (e : JsError),
      w.user = none → (st.recaptchaVerified = true ∨ isDev w.env = true) →
      fileSizeRejected file = false → w.apiResponse = .error e →
      (handleFileUpload w st (file :: rest)).recaptchaReset = false ∧
      (handleFileUpload w st (file :: rest)).state.recaptchaVerified =
        st.recaptchaVerified) ∧
    (∀ (w : World) (st : PageState) (url : String) (e : JsError),
      w.user = none → (st.recaptchaVerified = true ∨ isDev w.env = true) →
      w.apiResponse = .error e →
      (handleUrlUpload w st url).recaptchaReset = false ∧
      (handleUrlUpload w st url).state.recaptchaVerified =
        st.recaptchaVerified) := by
  refine ⟨?_, ?_, ?_, ?_⟩
  · intro w st file rest resp huser hgate hsz hresp
    have hcond := gate_false_of_verified_or_dev w st hgate
    cases hsucc : resp.success <;>
      simp [handleFileUpload, hsz, fileUploadAfterSizeCheck, fileUploadProceed,
        hcond, huser, publicFileAttempt, hresp, hsucc]
  · intro w st url resp huser hgate hresp
    have hcond := gate_false_of_verified_or_dev w st hgate
    cases hsucc : resp.success <;>
      simp [handleUrlUpload, hcond, huser, publicUrlAttempt, hresp, hsucc]
  · intro w st file rest e huser hgate hsz hresp
    have hcond := gate_false_of_verified_or_dev w st hgate
    simp [handleFileUpload, hsz, fileUploadAfterSizeCheck, fileUploadProceed,
      hcond, huser, publicFileAttempt, hresp]
  · intro w st url e huser hgate hresp
    have hcond := gate_false_of_verified_or_dev w st hgate
    simp [handleUrlUpload, hcond, huser, publicUrlAttempt, hresp]

/-- Witness for C1 at a concrete anonymous development-mode file submission
with a successful response. -/
theorem c1_witness :
    (handleFileUpload wAnonDevOk stInit (pdfFile :: [])).recaptchaReset = true ∧
    (handleFileUpload wAnonDevOk stInit (pdfFile :: [])).state.recaptchaVerified =
      false :=
  c1_reset_only_on_server_response.1 wAnonDevOk stInit pdfFile [] respOkUpload
    rfl (Or.inr (by decide)) (by decide) rfl

/-- Counterexample to C1 as stated: an anonymous attempt with a verified
token that ends in a transport error performs no widget reset and leaves
the verified flag true. -/
theorem c1_counterexample :
    (handleFileUpload wAnonProdErr stVerified (pdfFile :: [])).recaptchaReset =
      false ∧
    (handleFileUpload wAnonProdErr stVerified (pdfFile :: [])).state.recaptchaVerified =
      true :=
  ⟨rfl, rfl⟩

/-- C2 (amended): every authenticated URL submission, and every
authenticated file submission with a nonempty list whose first file passes
the size check and whose file read succeeds, calls the authenticated
endpoint and never navigates; when the response carries a truthy document
identifier it is recorded as lastDocumentId and polling starts; on a
successful response the success message is shown. -/
theorem c2_authenticated_flow :
    (∀ (w : World) (st : PageState) (url : String) (uid : String),
      w.user = some uid →
      (handleUrlUpload w st url).netCall = some (ApiCall.uploadMenuUrl url "") ∧
      (handleUrlUpload w st url).navTarget = none) ∧
    (∀ (w : World) (st : PageState) (file : FileData) (rest : List FileData)
      (uid dataUrl : String),
      w.user = some uid → fileSizeRejected file = false →
      w.readerResult = .ok dataUrl →
      (handleFileUpload w st (file :: rest)).netCall =
        some (ApiCall.uploadMenu file.name file.size file.ftype
          (extractBase64 dataUrl)) ∧
      (handleFileUpload w st (file :: rest)).navTarget = none) ∧
    (∀ (w : World) (st : PageState) (url : String) (uid : String)
      (resp : ApiResponse),
      w.user = some uid → w.apiResponse = .ok resp →
      jsTruthyStr resp.documentId = true →
      (handleUrlUpload w st url).state.lastDocumentId = resp.documentId ∧
      (handleUrlUpload w st url).pollingStarted = true) ∧
    (∀ (w : World) (st : PageState) (file : FileData) (rest : List FileData)
      (uid dataUrl : String) (resp : ApiResponse),
      w.user = some uid → fileSizeRejected file = false →
      w.readerResult = .ok dataUrl → w.apiResponse = .ok resp →
      jsTruthyStr resp.documentId = true →
      (handleFileUpload w st (file :: rest)).state.lastDocumentId =
        resp.documentId ∧
      (handleFileUpload w st (file :: rest)).pollingStarted = true) ∧
    (∀ (w : World) (st : PageState) (url : String) (uid : String)
      (resp : ApiResponse),
      w.user = some uid → w.apiResponse = .ok resp → resp.success = true →
      (handleUrlUpload w st url).state.uploadResult =
        some { success := true, message := uploadSuccessMsg } ∧
      (handleUrlUpload w st url).navTarget = none) ∧
    (∀ (w : World) (st : PageState) (file : FileData) (rest : List FileData)
      (uid dataUrl : String) (resp : ApiResponse),
      w.user = some uid → fileSizeRejected file = false →
      w.readerResult = .ok dataUrl → w.apiResponse = .ok resp →
      resp.success = true →
      (handleFileUpload w st (file :: rest)).state.uploadResult =
        some { success := true, message := uploadSuccessMsg } ∧
      (handleFileUpload w st (file :: rest)).navTarget = none) := by
  refine ⟨?_, ?_, ?_, ?_, ?_, ?_⟩
  · intro w st url uid huser
    rcases hresp : w.apiResponse with e | resp
    · simp [handleUrlUpload, huser, authUrlAttempt, hresp]
    · cases hsucc : resp.success <;>
        cases hdoc : jsTruthyStr resp.documentId <;>
        simp [handleUrlUpload, huser, authUrlAttempt, hresp, hsucc, hdoc]
  · intro w st file rest uid dataUrl huser hsz hrd
    rcases hresp : w.apiResponse with e | resp
    · simp [handleFileUpload, hsz, fileUploadAfterSizeCheck, fileUploadProceed,
        huser, authFileAttempt, hrd, hresp]
    · cases hsucc : resp.success <;>
        cases hdoc : jsTruthyStr resp.documentId <;>
        simp [handleFileUpload, hsz, fileUploadAfterSizeCheck, fileUploadProceed,
          huser, authFileAttempt, hrd, hresp, hsucc, hdoc]
  · intro w st url uid resp huser hresp hdoc
    cases hsucc : resp.success <;>
      simp [handleUrlUpload, huser, authUrlAttempt, hresp, hsucc, hdoc]
  · intro w st file rest uid dataUrl resp huser hsz hrd hresp hdoc
    cases hsucc : resp.success <;>
      simp [handleFileUpload, hsz, fileUploadAfterSizeCheck, fileUploadProceed,
        huser, authFileAttempt, hrd, hresp, hsucc, hdoc]
  · intro w st url uid resp huser hresp hsucc
    cases hdoc : jsTruthyStr resp.documentId <;>
      simp [handleUrlUpload, huser, authUrlAttempt, hresp, hsucc, hdoc]
  · intro w st file rest uid dataUrl resp huser hsz hrd hresp hsucc
    cases hdoc : jsTruthyStr resp.documentId <;>
      simp [handleFileUpload, hsz, fileUploadAfterSizeCheck, fileUploadProceed,
        huser, authFileAttempt, hrd, hresp, hsucc, hdoc]

/-- Witness for C2 at a concrete authenticated file submission whose
response carries a document identifier. -/
theorem c2_witness :
    ((handleFileUpload wAuthDoc stInit (pdfFile :: [])).netCall =
      some (ApiCall.uploadMenu pdfFile.name pdfFile.size pdfFile.ftype
        (extractBase64 dataUrlFx)) ∧
      (handleFileUpload wAuthDoc stInit (pdfFile :: [])).navTarget = none) ∧
    ((handleFileUpload wAuthDoc stInit (pdfFile :: [])).state.lastDocumentId =
        respOkDoc.documentId ∧
      (handleFileUpload wAuthDoc stInit (pdfFile :: [])).pollingStarted = true) ∧
    ((handleFileUpload wAuthDoc stInit (pdfFile :: [])).state.uploadResult =
        some { success := true, message := uploadSuccessMsg } ∧
      (handleFileUpload wAuthDoc stInit (pdfFile :: [])).navTarget = none) :=
  ⟨c2_authenticated_flow.2.1 wAuthDoc stInit pdfFile [] "uid" dataUrlFx rfl
      (by decide) rfl,
    c2_authenticated_flow.2.2.2.1 wAuthDoc stInit pdfFile [] "uid" dataUrlFx
      respOkDoc rfl (by decide) rfl rfl (by decide),
    c2_authenticated_flow.2.2.2.2.2 wAuthDoc stInit pdfFile [] "uid" dataUrlFx
      respOkDoc rfl (by decide) rfl rfl rfl⟩

/-- Counterexample to C2 as stated: an authenticated file submission with an
oversized file never calls the authenticated endpoint. -/
theorem c2_counterexample :
    (handleFileUpload wAuthDoc stInit (hugeFile :: [])).netCall = none := rfl

/-- C6: transport-error classification. Status 429 yields the rate-limit
message on both tabs; status 413 yields the file-too-large message on the
file tab (the URL tab has no 413 case); otherwise a message holding the
reCAPTCHA keyword yields the verification-failure message; anything else
yields the tab-specific generic message. The last two clauses tie the
classification to the handlers: an anonymous development-mode attempt that
ends in a transport error shows exactly the classified message. -/
theorem c6_transport_error_classification :
    (∀ e : JsError, e.status = some 429 →
      classifyFileUploadError e = rateLimitMsg ∧
      classifyUrlUploadError e = rateLimitMsg) ∧
    (∀ e : JsError, e.status = some 413 →
      classifyFileUploadError e = fileTooLargeMsg) ∧
    (∀ e : JsError, e.status ≠ some 429 → e.status ≠ some 413 →
      jsIncludes e.message "reCAPTCHA" = true →
      classifyFileUploadError e = recaptchaErrorMsg) ∧
    (∀ e : JsError, e.status ≠ some 429 →
      jsIncludes e.message "reCAPTCHA" = true →
      classifyUrlUploadError e = recaptchaErrorMsg) ∧
    (∀ e : JsError, e.status ≠ some 429 → e.status ≠ some 413 →
      jsIncludes e.message "reCAPTCHA" = false →
      classifyFileUploadError e = uploadErrorMsg) ∧
    (∀ e : JsError, e.status ≠ some 429 →
      jsIncludes e.message "reCAPTCHA" = false →
      classifyUrlUploadError e = urlParseErrorMsg) ∧
    (∀ (w : World) (st : PageState) (file : FileData) (rest : List FileData)
      (e : JsError),
      w.user = none → isDev w.env = true → fileSizeRejected file = false →
      w.apiResponse = .error e →
      (handleFileUpload w st (file :: rest)).state.uploadResult =
        some { success := false, message := classifyFileUploadError e }) ∧
    (∀ (w : World) (st : PageState) (url : String) (e : JsError),
      w.user = none → isDev w.env = true → w.apiResponse = .error e →
      (handleUrlUpload w st url).state.uploadResult =
        some { success := false, message := classifyUrlUploadError e }) := by
  refine ⟨?_, ?_, ?_, ?_, ?_, ?_, ?_, ?_⟩
  · intro e h
    constructor <;> simp [classifyFileUploadError, classifyUrlUploadError, h]
  · intro e h
    simp [classifyFileUploadError, h]
  · intro e h429 h413 hkw
    simp [classifyFileUploadError, h429, h413, hkw]
  · intro e h429 hkw
    simp [classifyUrlUploadError, h429, hkw]
  · intro e h429 h413 hkw
    simp [classifyFileUploadError, h429, h413, hkw]
  · intro e h429 hkw
    simp [classifyUrlUploadError, h429, hkw]
  · intro w st file rest e huser hdev hsz hresp
    have hcond := gate_false_of_verified_or_dev w st (Or.inr hdev)
    simp [handleFileUpload, hsz, fileUploadAfterSizeCheck, fileUploadProceed,
      hcond, huser, publicFileAttempt, hresp]
  · intro w st url e huser hdev hresp
    have hcond := gate_false_of_verified_or_dev w st (Or.inr hdev)
    simp [handleUrlUpload, hcond, huser, publicUrlAttempt, hresp]

/-- Witness for C6: a 429 error classifies to the rate-limit message on both
tabs, and a concrete anonymous development-mode URL attempt ending in a 413
error with the reCAPTCHA keyword shows the classified message. -/
theorem c6_witness :
    (classifyFileUploadError err429 = rateLimitMsg ∧
      classifyUrlUploadError err429 = rateLimitMsg) ∧
    (handleUrlUpload wAnonDevErr413 stInit "https://example.com").state.uploadResult =
      some { success := false, message := classifyUrlUploadError err413kw } :=
  ⟨c6_transport_error_classification.1 err429 rfl,
    c6_transport_error_classification.2.2.2.2.2.2.2 wAnonDevErr413 stInit
      "https://example.com" err413kw rfl (by decide) rfl⟩

/-- C7: when a submission receives a failure response, the shown message is
the server-provided one when the response carries a nonempty message, and
the tab-specific generic default when it carries none. The four handler
clauses cover the anonymous and authenticated variants of both tabs; the
last two clauses characterise the fallback. -/
theorem c7_failure_message_precedence :
    (∀ (w : World) (st : PageState) (file : FileData) (rest : List FileData)
      (resp : ApiResponse),
      w.user = none → isDev w.env = true → fileSizeRejected file = false →
      w.apiResponse = .ok resp → resp.success = false →
      (handleFileUpload w st (file :: rest)).state.uploadResult =
        some { success := false
               message := jsOrElse resp.message uploadErrorMsg }) ∧
    (∀ (w : World) (st : PageState) (url : String) (resp : ApiResponse),
      w.user = none → isDev w.env = true → w.apiResponse = .ok resp →
      resp.success = false →
      (handleUrlUpload w st url).state.uploadResult =
        some { success := false
               message := jsOrElse resp.message urlParseErrorMsg }) ∧
    (∀ (w : World) (st : PageState) (file : FileData) (rest : List FileData)
      (uid dataUrl : String) (resp : ApiResponse),
      w.user = some uid → fileSizeRejected file = false →
      w.readerResult = .ok dataUrl → w.apiResponse = .ok resp →
      resp.success = false →
      (handleFileUpload w st (file :: rest)).state.uploadResult =
        some { success := false
               message := jsOrElse resp.message uploadErrorMsg }) ∧
    (∀ (w : World) (st : PageState) (url : String) (uid : String)
      (resp : ApiResponse),
      w.user = some uid → w.apiResponse = .ok resp → resp.success = false →
      (handleUrlUpload w st url).state.uploadResult =
        some { success := false
               message := jsOrElse resp.message urlParseErrorMsg }) ∧
    (∀ (m dflt : String), m ≠ "" → jsOrElse (some m) dflt = m) ∧
    (∀ dflt : String, jsOrElse none dflt = dflt) := by
  refine ⟨?_, ?_, ?_, ?_, ?_, fun _ => rfl⟩
  · intro w st file rest resp huser hdev hsz hresp hsucc
    have hcond := gate_false_of_verified_or_dev w st (Or.inr hdev)
    simp [handleFileUpload, hsz, fileUploadAfterSizeCheck, fileUploadProceed,
      hcond, huser, publicFileAttempt, hresp, hsucc]
  · intro w st url resp huser hdev hresp hsucc
    have hcond := gate_false_of_verified_or_dev w st (Or.inr hdev)
    simp [handleUrlUpload, hcond, huser, publicUrlAttempt, hresp, hsucc]
  · intro w st file rest uid dataUrl resp huser hsz hrd hresp hsucc
    cases hdoc : jsTruthyStr resp.documentId <;>
      simp [handleFileUpload, hsz, fileUploadAfterSizeCheck, fileUploadProceed,
        huser, authFileAttempt, hrd, hresp, hsucc, hdoc]
  · intro w st url uid resp huser hresp hsucc
    cases hdoc : jsTruthyStr resp.documentId <;>
      simp [handleUrlUpload, huser, authUrlAttempt, hresp, hsucc, hdoc]
  · intro m dflt hne
    simp [jsOrElse, hne]

/-- Witness for C7 at a concrete anonymous development-mode URL submission
whose failure response carries a server message. -/
theorem c7_witness :
    (handleUrlUpload wAnonDevFail stInit "https://example.com").state.uploadResult =
      some { success := false
             message := jsOrElse respFailMsg.message urlParseErrorMsg } ∧
    jsOrElse (some "quota exceeded") urlParseErrorMsg = "quota exceeded" :=
  ⟨c7_failure_message_precedence.2.1 wAnonDevFail stInit "https://example.com"
      respFailMsg rfl (by decide) rfl rfl,
    c7_failure_message_precedence.2.2.2.2.1 "quota exceeded" urlParseErrorMsg
      (by decide)⟩

end PublicUpload
